import Mathlib

/-!
Verification of the liqo resource reflection engine against its sources.

The development embeds three parts of the repository:

* `Exposition` — the Ingress reflector (`pkg/virtualKubelet/reflection/exposition/ingress.go`):
  the `Handle` reconciliation step, with the forge translation, the ownership
  marker, the UID-preconditioned delete and the server-side apply modelled from
  the specification (the forge and generic packages are not among the sources).
* `Discovery` — the discovery controller (`DiscoveryCtrl.UpdateForeign` and its
  helpers): creation and update of ForeignCluster resources from TXT records,
  including the TTL maintenance pass.
* `LiqoctlAdd` — `enforceForeignCluster` from `pkg/liqoctl/add/handler.go`.

State is passed explicitly: each operation returns its result together with the
new store contents and the list of mutations actually performed on the store.
-/

namespace Exposition

/-- The reflector name constant from the source (`IngressReflectorName`). -/
def IngressReflectorName : String := "Ingress"

/-- Modelled from the spec: the reserved ownership-marker label key written by the
forge package on every remote object the engine creates (the forge package is not
among the sources under verification). -/
def liqoOriginKey : String := "virtualkubelet.liqo.io/origin"

/-- Modelled from the spec: the ownership-marker value identifying objects managed
by the reflection engine. -/
def liqoOriginValue : String := "reflection"

/-- Modelled from the spec: the metadata key under which the translation records
the source (local) object UID on the reflected remote object. -/
def liqoLocalUIDKey : String := "virtualkubelet.liqo.io/local-uid"

/-- Modelled from the spec: a metadata key namespace regarded as local-only and
stripped by the translation. -/
def localOnlyMark : String := "kubernetes.io/"

/-- The engine-visible data of an Ingress object: namespace, labels, annotations
and the (opaque) specification payload. -/
structure IngressData where
  ns : String
  labels : List (String × String)
  annots : List (String × String)
  spec : String
deriving DecidableEq, Repr

/-- An Ingress object as stored: its name, its server-assigned UID, and its data. -/
structure Ingress where
  name : String
  uid : String
  data : IngressData
deriving DecidableEq, Repr

/-- Modelled from the spec: `forge.IsReflected` — the ownership marker is the sole
authority for whether a remote object is managed by the engine. -/
def IsReflected (obj : Ingress) : Bool :=
  obj.data.labels.lookup liqoOriginKey == some liqoOriginValue

/-- Modelled from the spec: `forge.RemoteIngress` — the pure translation of a local
Ingress into the desired remote representation: strips local-only metadata,
rewrites the namespace to the mapped remote namespace, and injects the ownership
marker and the local UID. -/
def RemoteIngress (l : Ingress) (remoteNs : String) : IngressData :=
  { ns := remoteNs
    labels := (liqoOriginKey, liqoOriginValue) ::
      l.data.labels.filter (fun kv => !(kv.fst.startsWith localOnlyMark))
    annots := (liqoLocalUIDKey, l.uid) ::
      l.data.annots.filter (fun kv => !(kv.fst.startsWith localOnlyMark))
    spec := l.data.spec }

/-- The result of a cache read: the slot content (`ok (some _)` found,
`ok none` not found), or any other read failure. -/
inductive CacheRead (α : Type) where
  | ok (v : Option α)
  | failed
deriving DecidableEq

/-- A mutation actually performed on the remote object store. -/
inductive WriteOp where
  | create (obj : Ingress)
  | update (obj : Ingress)
  | delete (name uid : String)
deriving DecidableEq, Repr

/-- The reconciliation outcome of one successful Handle step. -/
inductive Outcome where
  | created
  | updated
  | noop
  | skippedUnowned
  | deleted
  | deferred
deriving DecidableEq, Repr

/-- How Handle terminates: normally with an outcome, with a returned error handed
to the work queue (retried as transient), or with a panic raised by
`utilruntime.Must`. -/
inductive HandleResult where
  | ok (o : Outcome)
  | transientError
  | panicked
deriving DecidableEq, Repr

/-- The guard of the ownership check in `Handle`: the remote read succeeded
(`rerr == nil`) and the object lacks the ownership marker. -/
def remoteUnowned : Option Ingress → Bool
  | some r => !(IsReflected r)
  | none => false

/-- Modelled from the spec: `generic.NamespacedReflector.DeleteRemote` — deletes
the remote object passing the recorded UID as a precondition; a missing object or
a UID mismatch aborts the delete without error (treated as already converged). -/
def DeleteRemote (live : Option Ingress) (name uid : String) :
    HandleResult × Option Ingress × List WriteOp :=
  match live with
  | none => (.ok .deleted, none, [])
  | some x =>
    if x.uid = uid then (.ok .deleted, none, [WriteOp.delete name uid])
    else (.ok .deleted, some x, [])

/-- Modelled from the spec: server-side apply against the remote store
(`forge.ApplyOptions`): creates the object when absent (the server assigns the
UID), rewrites the engine-managed data when present, and a no-op apply (desired
equals current) does not generate a write. -/
def ApplyIngress (live : Option Ingress) (name freshUID : String)
    (desired : IngressData) : HandleResult × Option Ingress × List WriteOp :=
  match live with
  | none =>
    let obj : Ingress := { name := name, uid := freshUID, data := desired }
    (.ok .created, some obj, [WriteOp.create obj])
  | some c =>
    if c.data = desired then (.ok .noop, some c, [])
    else
      let obj : Ingress := { name := c.name, uid := c.uid, data := desired }
      (.ok .updated, some obj, [WriteOp.update obj])

/-- `NamespacedIngressReflector.Handle` from the source: reads the local and
remote objects, panicking via `utilruntime.Must` on any non-NotFound read error;
skips a remote object that exists but is not managed by us; when the local object
no longer exists, ensures the remote one is absent via a UID-preconditioned
delete; otherwise forges the remote mutation and applies it, returning any apply
error. `live` is the actual remote-store slot the mutation operations act on;
`applyOk` injects the success or failure of the apply call. -/
def Handle (remoteNs freshUID name : String) (applyOk : Bool)
    (localR remoteR : CacheRead Ingress) (live : Option Ingress) :
    HandleResult × Option Ingress × List WriteOp :=
  match localR, remoteR with
  | .failed, _ => (.panicked, live, [])
  | .ok _, .failed => (.panicked, live, [])
  | .ok llocal, .ok rremote =>
    if remoteUnowned rremote then (.ok .skippedUnowned, live, [])
    else
      match llocal with
      | none =>
        match rremote with
        | some r => DeleteRemote live name r.uid
        | none => (.ok .noop, live, [])
      | some l =>
        if applyOk then ApplyIngress live name freshUID (RemoteIngress l remoteNs)
        else (.transientError, live, [])

/-- One Handle invocation against consistent caches: both reads observe the
actual local and remote state and the apply call succeeds. -/
def stepHandle (remoteNs freshUID name : String) (llocal remote : Option Ingress) :
    HandleResult × Option Ingress × List WriteOp :=
  Handle remoteNs freshUID name true (.ok llocal) (.ok remote) remote

/-- The remote state left by one consistent Handle invocation. -/
def afterHandle (remoteNs freshUID name : String) (llocal remote : Option Ingress) :
    Option Ingress :=
  (stepHandle remoteNs freshUID name llocal remote).2.1

/-- The store mutations issued by one consistent Handle invocation. -/
def writesOfHandle (remoteNs freshUID name : String) (llocal remote : Option Ingress) :
    List WriteOp :=
  (stepHandle remoteNs freshUID name llocal remote).2.2

/-- The fallback policy of a kind: whether an unresolved remote namespace is
tolerated (skip and retry passively) or is an explicit-mapping requirement. -/
inductive FallbackPolicy where
  | withFallback
  | withoutFallback
deriving DecidableEq, Repr

/-- `generic.WithoutFallback()` from the source: the policy requiring an explicit
namespace mapping. -/
def WithoutFallback : FallbackPolicy := .withoutFallback

/-- The per-kind reflector configuration assembled by `generic.NewReflector`. -/
structure Reflector where
  name : String
  fallback : FallbackPolicy
  workers : Nat
deriving DecidableEq, Repr

/-- `NewIngressReflector` from the source: the Ingress reflector is registered
with `generic.WithoutFallback()`. -/
def NewIngressReflector (workers : Nat) : Reflector :=
  { name := IngressReflectorName, fallback := WithoutFallback, workers := workers }

/-- Modelled from the spec: the generic reflector's treatment of a key whose
remote namespace is not yet resolved — a fallback-tolerant kind defers silently
with no error, a non-fallback kind reports a retryable transient failure (the
generic reflection package is not among the sources under verification). -/
def handleUnresolvedNamespace : FallbackPolicy → HandleResult
  | .withFallback => .ok .deferred
  | .withoutFallback => .transientError

end Exposition

namespace Discovery

/-- The discovery type of a ForeignCluster (`v1alpha1.DiscoveryType`). -/
inductive DiscoveryType where
  | lan
  | wan
  | manual
  | incomingPeering
deriving DecidableEq, Repr

/-- A mDNS/DNS TXT record describing a discovered cluster (`TxtData`). -/
structure TxtData where
  id : String
  name : String
  ns : String
  apiUrl : String
deriving DecidableEq, Repr

/-- A SearchDomain resource (`v1alpha1.SearchDomain`): only the fields read by
`UpdateForeign` and its helpers. -/
structure SearchDomain where
  name : String
  uid : String
  autoJoin : Bool
deriving DecidableEq, Repr

/-- A ForeignCluster resource as read and written by the discovery controller:
the fields touched by `UpdateForeign`, `createForeign`, `CheckUpdate` and
`UpdateTtl`. `hasCaDataRef` and `hasAdvertisement` model whether the
corresponding status references are non-nil. -/
structure ForeignCluster where
  name : String
  clusterID : String
  clusterName : String
  ns : String
  apiUrl : String
  discoveryType : DiscoveryType
  join : Bool
  ownedBySearchDomain : Bool
  ttl : Int
  hasCaDataRef : Bool
  hasAdvertisement : Bool
deriving DecidableEq, Repr

/-- A mutation performed on the ForeignCluster store, recording the cluster ID of
the object written. -/
inductive FCWrite where
  | create (cid : String)
  | update (cid : String)
  | delete (cid : String)
deriving DecidableEq, Repr

/-- The cluster ID a store mutation concerns. -/
def FCWrite.cid : FCWrite → String
  | .create i => i
  | .update i => i
  | .delete i => i

/-- `DiscoveryCtrl.GetForeignClusterByID` from the source: list the
ForeignClusters labelled with the given cluster ID and return the first one,
or a not-found signal (`none`). -/
def GetForeignClusterByID (clusterID : String) (store : List ForeignCluster) :
    Option ForeignCluster :=
  store.find? (fun fc => fc.clusterID == clusterID)

/-- An Update call against the ForeignCluster store: replaces the object with the
matching name. -/
def storeUpdate (store : List ForeignCluster) (fc : ForeignCluster) :
    List ForeignCluster :=
  store.map (fun x => if x.name = fc.name then fc else x)

/-- A Delete call against the ForeignCluster store: removes the object with the
matching name. -/
def storeDelete (store : List ForeignCluster) (name : String) :
    List ForeignCluster :=
  store.filter (fun x => !(x.name == name))

/-- `DiscoveryCtrl.createForeign` from the source: forge a new ForeignCluster
from a TXT record, with the SearchDomain owner reference and auto-join flag when
present, and the default TTL of 3 for LAN discovery. -/
def createForeign (txt : TxtData) (sd : Option SearchDomain)
    (dt : DiscoveryType) : ForeignCluster :=
  let fc : ForeignCluster :=
    { name := txt.id, clusterID := txt.id, clusterName := txt.name,
      ns := txt.ns, apiUrl := txt.apiUrl, discoveryType := dt,
      join := false, ownedBySearchDomain := false, ttl := 0,
      hasCaDataRef := false, hasAdvertisement := false }
  let fc :=
    match sd with
    | some s => { fc with join := s.autoJoin, ownedBySearchDomain := true }
    | none => fc
  if dt = .lan then { fc with ttl := 3 } else fc

/-- `DiscoveryCtrl.CheckUpdate` from the source: when the API URL or namespace
changed, or the new discovery type has higher priority, rewrite those fields,
drop the CA data reference, update the object, and — if an advertisement was
outstanding — clear it with a second update (followed by the advertisement
deletion, which is not a ForeignCluster write); otherwise leave the object
untouched. Returns the resulting object, the ForeignCluster writes performed,
and the new store. `hp old new` models `fc.HasHigherPriority(new)`. -/
def CheckUpdate (hp : DiscoveryType → DiscoveryType → Bool) (txt : TxtData)
    (fc : ForeignCluster) (dt : DiscoveryType) (sd : Option SearchDomain)
    (store : List ForeignCluster) :
    ForeignCluster × List FCWrite × List ForeignCluster :=
  if fc.apiUrl != txt.apiUrl || fc.ns != txt.ns || hp fc.discoveryType dt then
    let fc1 := { fc with apiUrl := txt.apiUrl, ns := txt.ns, discoveryType := dt }
    let fc2 :=
      match sd with
      | some s => if dt = DiscoveryType.wan then { fc1 with join := s.autoJoin } else fc1
      | none => fc1
    let fc3 := { fc2 with hasCaDataRef := false }
    let store1 := storeUpdate store fc3
    if fc3.hasAdvertisement then
      let fc4 := { fc3 with hasAdvertisement := false }
      (fc4, [FCWrite.update fc3.clusterID, FCWrite.update fc4.clusterID],
        storeUpdate store1 fc4)
    else
      (fc3, [FCWrite.update fc3.clusterID], store1)
  else
    (fc, [], store)

/-- One iteration of the TTL pass of `DiscoveryCtrl.UpdateTtl`: a LAN
ForeignCluster present in the TXT list has its TTL reset to 3 (when it had been
decreased); one absent from the list has its TTL decremented, and is deleted once
the TTL reaches zero. -/
def ttlStep (txts : List TxtData) (acc : List ForeignCluster × List FCWrite)
    (fc : ForeignCluster) : List ForeignCluster × List FCWrite :=
  if txts.any (fun t => t.id == fc.clusterID) then
    if fc.ttl != 3 then
      (storeUpdate acc.1 { fc with ttl := 3 }, acc.2 ++ [FCWrite.update fc.clusterID])
    else acc
  else
    let fc1 := { fc with ttl := fc.ttl - 1 }
    if fc1.ttl ≤ 0 then
      (storeDelete acc.1 fc1.name, acc.2 ++ [FCWrite.delete fc1.clusterID])
    else
      (storeUpdate acc.1 fc1, acc.2 ++ [FCWrite.update fc1.clusterID])

/-- `DiscoveryCtrl.UpdateTtl` from the source: iterate over the snapshot of
LAN-discovered ForeignClusters, resetting or decrementing their TTLs against the
TXT records of the current discovery round. -/
def UpdateTtl (txts : List TxtData) (store : List ForeignCluster) :
    List ForeignCluster × List FCWrite :=
  (store.filter (fun fc => fc.discoveryType == DiscoveryType.lan)).foldl
    (ttlStep txts) (store, [])

/-- The main loop of `DiscoveryCtrl.UpdateForeign`: for each TXT record, skip the
local cluster, create a ForeignCluster for unknown IDs, and run `CheckUpdate` on
known ones; created and updated objects are collected in order. Returns the
collected list, the ForeignCluster writes, and the resulting store. -/
def updateForeignLoop (localID : String) (hp : DiscoveryType → DiscoveryType → Bool)
    (sd : Option SearchDomain) (dt : DiscoveryType) :
    List TxtData → List ForeignCluster →
    List ForeignCluster × List FCWrite × List ForeignCluster
  | [], store => ([], [], store)
  | txt :: rest, store =>
    if txt.id = localID then
      updateForeignLoop localID hp sd dt rest store
    else
      match GetForeignClusterByID txt.id store with
      | none =>
        let fc := createForeign txt sd dt
        let out := updateForeignLoop localID hp sd dt rest (store ++ [fc])
        (fc :: out.1, FCWrite.create fc.clusterID :: out.2.1, out.2.2)
      | some fc =>
        let r := CheckUpdate hp txt fc dt sd store
        let out := updateForeignLoop localID hp sd dt rest r.2.2
        (r.1 :: out.1, r.2.1 ++ out.2.1, out.2.2)

/-- `DiscoveryCtrl.UpdateForeign` from the source: the discovery type is LAN when
no SearchDomain is given and WAN otherwise; the main loop processes every TXT
record, and for LAN discovery the TTL pass runs afterwards. `localID` is the
local cluster's own cluster ID. -/
def UpdateForeign (localID : String) (hp : DiscoveryType → DiscoveryType → Bool)
    (data : List TxtData) (sd : Option SearchDomain) (store : List ForeignCluster) :
    List ForeignCluster × List FCWrite × List ForeignCluster :=
  let dt := match sd with | none => DiscoveryType.lan | some _ => DiscoveryType.wan
  let r := updateForeignLoop localID hp sd dt data store
  match sd with
  | none =>
    let t := UpdateTtl data r.2.2
    (r.1, r.2.1 ++ t.2, t.1)
  | some _ => (r.1, r.2.1, r.2.2)

end Discovery

namespace LiqoctlAdd

/-- `discoveryv1alpha1.PeeringEnabledYes`. -/
def PeeringEnabledYes : String := "Yes"

/-- `discoveryv1alpha1.PeeringEnabledAuto`. -/
def PeeringEnabledAuto : String := "Auto"

/-- `ClusterArgs` from the source: arguments of the liqoctl add command. -/
structure ClusterArgs where
  clusterName : String
  clusterToken : String
  clusterAuthURL : String
  clusterID : String
  ns : String
deriving DecidableEq, Repr

/-- A ForeignCluster as read and written by `enforceForeignCluster`: the fields
its mutation closure touches, plus the cluster-id label set on creation. -/
structure ForeignCluster where
  name : String
  labelClusterID : Option String
  clusterID : String
  clusterName : String
  foreignAuthURL : String
  outgoingPeeringEnabled : String
  incomingPeeringEnabled : String
  insecureSkipTLSVerify : Option Bool
deriving DecidableEq, Repr

/-- The mutation closure passed to `controllerutil.CreateOrUpdate` inside
`enforceForeignCluster`: always rewrites the cluster ID, fills the cluster name
only when empty, always sets the foreign auth URL and enables outgoing peering,
and defaults incoming peering and the TLS-verification flag only when unset. -/
def mutateForeignCluster (t : ClusterArgs) (fc : ForeignCluster) : ForeignCluster :=
  let fc1 := { fc with clusterID := t.clusterID }
  let fc2 :=
    if fc1.clusterName = "" then { fc1 with clusterName := t.clusterName } else fc1
  let fc3 := { fc2 with foreignAuthURL := t.clusterAuthURL,
                        outgoingPeeringEnabled := PeeringEnabledYes }
  let fc4 :=
    if fc3.incomingPeeringEnabled = "" then
      { fc3 with incomingPeeringEnabled := PeeringEnabledAuto }
    else fc3
  if fc4.insecureSkipTLSVerify = none then
    { fc4 with insecureSkipTLSVerify := some true }
  else fc4

/-- `enforceForeignCluster` from the source: look up the ForeignCluster by
cluster ID; when absent, start from a fresh object named after the cluster and
labelled with the cluster ID; then create-or-update it through the mutation
closure. Returns the object as written. -/
def enforceForeignCluster (t : ClusterArgs) (existing : Option ForeignCluster) :
    ForeignCluster :=
  let fc :=
    match existing with
    | none =>
      { name := t.clusterName, labelClusterID := some t.clusterID,
        clusterID := "", clusterName := "", foreignAuthURL := "",
        outgoingPeeringEnabled := "", incomingPeeringEnabled := "",
        insecureSkipTLSVerify := none }
    | some fc => fc
  mutateForeignCluster t fc

end LiqoctlAdd

namespace Exposition

/-- A concrete local Ingress with some local-only metadata. -/
def sampleLocal : Ingress :=
  { name := "P", uid := "uid-local-1",
    data := { ns := "ns-local",
              labels := [("app", "web"), ("kubernetes.io/metadata.name", "ns-local")],
              annots := [("note", "v1")],
              spec := "rules-v1" } }

/-- A concrete remote Ingress that lacks the ownership marker. -/
def unownedRemote : Ingress :=
  { name := "X", uid := "uid-x",
    data := { ns := "ns-remote", labels := [], annots := [], spec := "foreign" } }

/-- A concrete remote Ingress carrying the ownership marker, with UID uid-r1. -/
def ownedRemote : Ingress :=
  { name := "P", uid := "uid-r1",
    data := { ns := "ns-remote", labels := [(liqoOriginKey, liqoOriginValue)],
              annots := [], spec := "rules-v0" } }

/-- The same remote object recreated by another actor under a different UID. -/
def recreatedRemote : Ingress := { ownedRemote with uid := "uid-r2" }

/-- A remote Ingress already converged to the translation of `sampleLocal`. -/
def convergedRemote : Ingress :=
  { name := "P", uid := "uid-r1", data := RemoteIngress sampleLocal "ns-remote" }

end Exposition

namespace Discovery

/-- A TXT record advertising the local cluster itself. -/
def txtSelf : TxtData :=
  { id := "self", name := "Self", ns := "liqo", apiUrl := "https://self.example" }

/-- A TXT record advertising another cluster. -/
def txtOther : TxtData :=
  { id := "other", name := "Other", ns := "liqo", apiUrl := "https://other.example" }

/-- A pre-existing LAN-discovered ForeignCluster carrying the local cluster ID,
with a decreased TTL. -/
def fcSelf : ForeignCluster :=
  { name := "self", clusterID := "self", clusterName := "Self", ns := "liqo",
    apiUrl := "https://self.example", discoveryType := .lan, join := false,
    ownedBySearchDomain := false, ttl := 1, hasCaDataRef := false,
    hasAdvertisement := false }

end Discovery

namespace LiqoctlAdd

/-- Concrete liqoctl add arguments. -/
def tArgs : ClusterArgs :=
  { clusterName := "new-name", clusterToken := "tok",
    clusterAuthURL := "https://auth.example", clusterID := "cid-1", ns := "liqo" }

/-- A concrete pre-existing ForeignCluster whose cluster name is already set. -/
def fcExisting : ForeignCluster :=
  { name := "keep-me", labelClusterID := some "cid-1", clusterID := "cid-1",
    clusterName := "keep-me", foreignAuthURL := "https://old.example",
    outgoingPeeringEnabled := "No", incomingPeeringEnabled := "Auto",
    insecureSkipTLSVerify := some false }

end LiqoctlAdd

namespace Exposition

/-- The translated remote object always carries the ownership marker. -/
theorem isReflected_remoteIngress (name uid : String) (l : Ingress) (remoteNs : String) :
    IsReflected { name := name, uid := uid, data := RemoteIngress l remoteNs } = true := by
  simp [IsReflected, RemoteIngress, List.lookup]

/-- With the local object present and no unowned remote collision, a successful
Handle leaves a remote slot carrying exactly the translation of the local object. -/
theorem handle_local_present_slot (remoteNs freshUID name : String) (l : Ingress)
    (rr live : Option Ingress) (h : remoteUnowned rr = false) :
    ∃ obj, (Handle remoteNs freshUID name true (.ok (some l)) (.ok rr) live).2.1 = some obj
      ∧ obj.data = RemoteIngress l remoteNs
      ∧ ∃ o, (Handle remoteNs freshUID name true (.ok (some l)) (.ok rr) live).1
          = HandleResult.ok o := by
  cases live with
  | none =>
    exact ⟨{ name := name, uid := freshUID, data := RemoteIngress l remoteNs },
      by simp [Handle, h, ApplyIngress], rfl, Outcome.created, by simp [Handle, h, ApplyIngress]⟩
  | some c =>
    by_cases hd : c.data = RemoteIngress l remoteNs
    · exact ⟨c, by simp [Handle, h, ApplyIngress, hd], hd, Outcome.noop,
        by simp [Handle, h, ApplyIngress, hd]⟩
    · exact ⟨{ name := c.name, uid := c.uid, data := RemoteIngress l remoteNs },
        by simp [Handle, h, ApplyIngress, hd], rfl, Outcome.updated,
        by simp [Handle, h, ApplyIngress, hd]⟩

/-- C1: whenever the remote Ingress exists without the ownership marker, Handle
returns the skipped-unowned outcome without error and performs no create, update,
apply or delete — the remote object is unchanged, regardless of the local state. -/
theorem handle_ownership_safety (remoteNs freshUID name : String) (applyOk : Bool)
    (llocal : Option Ingress) (r : Ingress) (live : Option Ingress)
    (h : IsReflected r = false) :
    Handle remoteNs freshUID name applyOk (.ok llocal) (.ok (some r)) live
      = (.ok .skippedUnowned, live, []) := by
  cases llocal <;> simp [Handle, remoteUnowned, h]

/-- Witness for C1 at a concrete unowned remote object. -/
theorem handle_ownership_safety_witness :
    Handle "ns-remote" "uid-f" "X" true (.ok (some sampleLocal)) (.ok (some unownedRemote))
        (some unownedRemote)
      = (.ok .skippedUnowned, some unownedRemote, []) :=
  handle_ownership_safety "ns-remote" "uid-f" "X" true (some sampleLocal) unownedRemote
    (some unownedRemote) (by decide)

/-- C2: Handle is idempotent — after a first consistent invocation, a second one
leaves the remote state unchanged and issues no write; and a no-op apply (the
desired translation already equal to the current remote data) issues no write at
all. -/
theorem handle_idempotent (remoteNs u u' name : String) (llocal remote : Option Ingress) :
    afterHandle remoteNs u' name llocal (afterHandle remoteNs u name llocal remote)
      = afterHandle remoteNs u name llocal remote ∧
    writesOfHandle remoteNs u' name llocal (afterHandle remoteNs u name llocal remote) = [] ∧
    (∀ l c, llocal = some l → remote = some c → c.data = RemoteIngress l remoteNs →
      writesOfHandle remoteNs u name llocal remote = []) := by
  cases llocal with
  | none =>
    cases remote with
    | none =>
      refine ⟨rfl, rfl, ?_⟩
      intro l c hl _ _
      exact absurd hl (by simp)
    | some c =>
      by_cases hr : IsReflected c
      · refine ⟨?_, ?_, ?_⟩ <;>
          simp [afterHandle, writesOfHandle, stepHandle, Handle, remoteUnowned,
                DeleteRemote, hr]
      · refine ⟨?_, ?_, ?_⟩ <;>
          simp [afterHandle, writesOfHandle, stepHandle, Handle, remoteUnowned,
                DeleteRemote, hr]
  | some l =>
    cases remote with
    | none =>
      refine ⟨?_, ?_, ?_⟩ <;>
        simp [afterHandle, writesOfHandle, stepHandle, Handle, remoteUnowned,
              ApplyIngress, isReflected_remoteIngress]
    | some c =>
      by_cases hr : IsReflected c
      · by_cases hd : c.data = RemoteIngress l remoteNs
        · refine ⟨?_, ?_, ?_⟩ <;>
            simp [afterHandle, writesOfHandle, stepHandle, Handle, remoteUnowned,
                  ApplyIngress, hr, hd]
        · refine ⟨?_, ?_, ?_⟩ <;>
            simp [afterHandle, writesOfHandle, stepHandle, Handle, remoteUnowned,
                  ApplyIngress, isReflected_remoteIngress, hr, hd]
      · refine ⟨?_, ?_, ?_⟩ <;>
          simp [afterHandle, writesOfHandle, stepHandle, Handle, remoteUnowned, hr]

/-- Witness for C2 at a concrete converged state: a no-op apply issues no write. -/
theorem handle_idempotent_witness :
    writesOfHandle "ns-remote" "uid-f" "P" (some sampleLocal) (some convergedRemote)
      = [] :=
  (handle_idempotent "ns-remote" "uid-f" "uid-g" "P" (some sampleLocal)
    (some convergedRemote)).2.2 sampleLocal convergedRemote rfl rfl rfl

/-- C3: with the local Ingress absent and an owned remote Ingress present, Handle
performs the delete through the UID precondition recorded on the remote object;
when the live object carries a different UID the delete is a no-op without error,
and when the UID matches the object is removed. -/
theorem handle_delete_uid_precondition (remoteNs freshUID name : String) (applyOk : Bool)
    (r : Ingress) (live : Option Ingress) (h : IsReflected r = true) :
    Handle remoteNs freshUID name applyOk (.ok none) (.ok (some r)) live
        = DeleteRemote live name r.uid ∧
    (∀ x, live = some x → x.uid ≠ r.uid →
      Handle remoteNs freshUID name applyOk (.ok none) (.ok (some r)) live
        = (.ok .deleted, live, [])) ∧
    (∀ x, live = some x → x.uid = r.uid →
      Handle remoteNs freshUID name applyOk (.ok none) (.ok (some r)) live
        = (.ok .deleted, none, [WriteOp.delete name r.uid])) := by
  refine ⟨by simp [Handle, remoteUnowned, h], ?_, ?_⟩
  · intro x hx hne
    subst hx
    simp [Handle, remoteUnowned, h, DeleteRemote, hne]
  · intro x hx he
    subst hx
    simp [Handle, remoteUnowned, h, DeleteRemote, he]

/-- Witness for C3: the live remote object was recreated under a different UID,
so the preconditioned delete is a no-op without error. -/
theorem handle_delete_uid_precondition_witness :
    Handle "ns-remote" "uid-f" "P" true (.ok none) (.ok (some ownedRemote))
        (some recreatedRemote)
      = (.ok .deleted, some recreatedRemote, []) := by
  have h := handle_delete_uid_precondition "ns-remote" "uid-f" "P" true ownedRemote
    (some recreatedRemote) (by decide)
  exact h.2.1 recreatedRemote rfl (by decide)

/-- C4 as stated is false at this input: a non-NotFound failure of the local read
does not produce a returned transient error — Handle panics via utilruntime.Must. -/
theorem handle_read_failure_counterexample :
    (Handle "ns-remote" "uid-f" "P" true .failed (.ok none) none).1
        = HandleResult.panicked ∧
    (Handle "ns-remote" "uid-f" "P" true .failed (.ok none) none).1
        ≠ HandleResult.transientError := by
  decide

/-- C4 amended: only not-found is tolerated as a non-error read signal; any other
read failure makes Handle panic without mutating the remote store, while a
failure of the remote apply call is what Handle returns to the work queue as a
retryable error. -/
theorem handle_read_failure_panics (remoteNs freshUID name : String) (applyOk : Bool)
    (localR remoteR : CacheRead Ingress) (live : Option Ingress) :
    (localR = .failed ∨ remoteR = .failed →
      Handle remoteNs freshUID name applyOk localR remoteR live = (.panicked, live, [])) ∧
    (∀ l rr, remoteUnowned rr = false →
      Handle remoteNs freshUID name false (.ok (some l)) (.ok rr) live
        = (.transientError, live, [])) := by
  constructor
  · rintro (h | h)
    · subst h; rfl
    · subst h; cases localR <;> rfl
  · intro l rr h
    simp [Handle, h]

/-- Witness for C4 (amended) at a concrete failed local read. -/
theorem handle_read_failure_panics_witness :
    Handle "ns-remote" "uid-f" "P" true .failed (.ok none) none
      = (HandleResult.panicked, none, []) :=
  (handle_read_failure_panics "ns-remote" "uid-f" "P" true .failed (.ok none) none).1
    (Or.inl rfl)

/-- C5: with the local Ingress present and no unowned remote collision, one
successful Handle invocation leaves the remote object equal to the translation of
the local object observed at that invocation — never an intermediate state. -/
theorem handle_applies_translation (remoteNs freshUID name : String) (l : Ingress)
    (rr live : Option Ingress) (h : remoteUnowned rr = false) :
    ∃ obj, (Handle remoteNs freshUID name true (.ok (some l)) (.ok rr) live).2.1 = some obj
      ∧ obj.data = RemoteIngress l remoteNs
      ∧ ∃ o, (Handle remoteNs freshUID name true (.ok (some l)) (.ok rr) live).1
          = HandleResult.ok o :=
  handle_local_present_slot remoteNs freshUID name l rr live h

/-- Witness for C5 at a concrete local object and an absent remote. -/
theorem handle_applies_translation_witness :
    ∃ obj, (Handle "ns-remote" "uid-f" "P" true (.ok (some sampleLocal)) (.ok none)
        none).2.1 = some obj
      ∧ obj.data = RemoteIngress sampleLocal "ns-remote"
      ∧ ∃ o, (Handle "ns-remote" "uid-f" "P" true (.ok (some sampleLocal)) (.ok none)
          none).1 = HandleResult.ok o :=
  handle_applies_translation "ns-remote" "uid-f" "P" sampleLocal none none (by decide)

/-- C6: the Ingress reflector is constructed with WithoutFallback, so handling a
key whose remote namespace is unresolved yields a retryable transient failure,
while a fallback-tolerant kind yields the deferred outcome with no error. -/
theorem ingress_fallback_policy (workers : Nat) :
    handleUnresolvedNamespace (NewIngressReflector workers).fallback
        = HandleResult.transientError ∧
    handleUnresolvedNamespace FallbackPolicy.withFallback
        = HandleResult.ok Outcome.deferred :=
  ⟨rfl, rfl⟩

/-- C7: the translation used by Handle is a pure, deterministic function of the
local object and the target remote namespace: equal inputs give equal desired
objects, and the remote data Handle leaves behind is independent of every other
engine input (fresh UID, key name, cached remote read, live remote state). -/
theorem remoteIngress_deterministic (l l' : Ingress) (n n' : String)
    (hl : l = l') (hn : n = n') :
    RemoteIngress l n = RemoteIngress l' n' ∧
    ∀ u₁ u₂ nm₁ nm₂ rr₁ rr₂ live₁ live₂,
      remoteUnowned rr₁ = false → remoteUnowned rr₂ = false →
      ∀ o₁ o₂, (Handle n u₁ nm₁ true (.ok (some l)) (.ok rr₁) live₁).2.1 = some o₁ →
        (Handle n' u₂ nm₂ true (.ok (some l')) (.ok rr₂) live₂).2.1 = some o₂ →
        o₁.data = o₂.data := by
  subst hl
  subst hn
  refine ⟨rfl, ?_⟩
  intro u₁ u₂ nm₁ nm₂ rr₁ rr₂ live₁ live₂ h₁ h₂ o₁ o₂ ho₁ ho₂
  obtain ⟨obj₁, hs₁, hd₁, -⟩ := handle_local_present_slot n u₁ nm₁ l rr₁ live₁ h₁
  obtain ⟨obj₂, hs₂, hd₂, -⟩ := handle_local_present_slot n u₂ nm₂ l rr₂ live₂ h₂
  rw [ho₁] at hs₁
  rw [ho₂] at hs₂
  rw [Option.some_inj] at hs₁ hs₂
  rw [hs₁, hs₂, hd₁, hd₂]

/-- Witness for C7: two invocations on the same local object and namespace, in
different engine states, leave the same remote data. -/
theorem remoteIngress_deterministic_witness :
    RemoteIngress sampleLocal "ns-remote" = RemoteIngress sampleLocal "ns-remote" :=
  (remoteIngress_deterministic sampleLocal sampleLocal "ns-remote" "ns-remote" rfl rfl).1

/-- C8: when both the local and the remote Ingress are absent, Handle is a no-op:
it returns without error and issues no mutation to the remote store. -/
theorem handle_both_absent_noop (remoteNs freshUID name : String) (applyOk : Bool)
    (live : Option Ingress) :
    Handle remoteNs freshUID name applyOk (.ok none) (.ok none) live
      = (.ok .noop, live, []) := by
  simp [Handle, remoteUnowned]

end Exposition

namespace Discovery

/-- A ForeignCluster found by cluster ID carries that cluster ID. -/
theorem getForeignClusterByID_cid (clusterID : String) (store : List ForeignCluster)
    (fc : ForeignCluster) (h : GetForeignClusterByID clusterID store = some fc) :
    fc.clusterID = clusterID := by
  have := List.find?_some h
  simpa using this

/-- createForeign builds the ForeignCluster for exactly the TXT record's ID. -/
theorem createForeign_cid (txt : TxtData) (sd : Option SearchDomain)
    (dt : DiscoveryType) : (createForeign txt sd dt).clusterID = txt.id := by
  cases sd <;> simp [createForeign] <;> split <;> rfl

/-- CheckUpdate neither changes the cluster ID of the object nor writes any
ForeignCluster with a different cluster ID. -/
theorem CheckUpdate_cid (hp : DiscoveryType → DiscoveryType → Bool) (txt : TxtData)
    (fc : ForeignCluster) (dt : DiscoveryType) (sd : Option SearchDomain)
    (store : List ForeignCluster) :
    (CheckUpdate hp txt fc dt sd store).1.clusterID = fc.clusterID ∧
    ∀ w ∈ (CheckUpdate hp txt fc dt sd store).2.1, w.cid = fc.clusterID := by
  cases sd <;> simp only [CheckUpdate] <;> split_ifs <;> simp [FCWrite.cid]

/-- The main loop of UpdateForeign never collects nor writes a ForeignCluster
whose cluster ID is the local one. -/
theorem updateForeignLoop_skips_local (localID : String)
    (hp : DiscoveryType → DiscoveryType → Bool) (sd : Option SearchDomain)
    (dt : DiscoveryType) (data : List TxtData) (store : List ForeignCluster) :
    (∀ fc ∈ (updateForeignLoop localID hp sd dt data store).1, fc.clusterID ≠ localID) ∧
    (∀ w ∈ (updateForeignLoop localID hp sd dt data store).2.1, w.cid ≠ localID) := by
  induction data generalizing store with
  | nil => simp [updateForeignLoop]
  | cons txt rest ih =>
    by_cases hl : txt.id = localID
    · simpa [updateForeignLoop, hl] using ih store
    · cases hfind : GetForeignClusterByID txt.id store with
      | none =>
        have hcid := createForeign_cid txt sd dt
        have ih2 := ih (store ++ [createForeign txt sd dt])
        constructor
        · intro fc hfc
          simp only [updateForeignLoop, hfind, if_neg hl] at hfc
          rcases List.mem_cons.mp hfc with h | h
          · rw [h, hcid]; exact hl
          · exact ih2.1 fc h
        · intro w hw
          simp only [updateForeignLoop, hfind, if_neg hl] at hw
          rcases List.mem_cons.mp hw with h | h
          · rw [h]; simpa [FCWrite.cid, hcid] using hl
          · exact ih2.2 w h
      | some fc0 =>
        have hc := getForeignClusterByID_cid txt.id store fc0 hfind
        have hcu := CheckUpdate_cid hp txt fc0 dt sd store
        have ih2 := ih (CheckUpdate hp txt fc0 dt sd store).2.2
        constructor
        · intro fc hfc
          simp only [updateForeignLoop, hfind, if_neg hl] at hfc
          rcases List.mem_cons.mp hfc with h | h
          · rw [h, hcu.1, hc]; exact hl
          · exact ih2.1 fc h
        · intro w hw
          simp only [updateForeignLoop, hfind, if_neg hl] at hw
          rcases List.mem_append.mp hw with h | h
          · rw [hcu.2 w h, hc]; exact hl
          · exact ih2.2 w h

/-- C9 amended: the discovery loop of UpdateForeign never creates or updates a
ForeignCluster for a record carrying the local cluster's own ID, and the returned
list of created/updated ForeignClusters contains no entry with that ID; the TTL
pass that UpdateForeign additionally runs for LAN discovery may however still
update or delete a pre-existing LAN ForeignCluster whose cluster ID equals the
local one. -/
theorem updateForeign_skips_local (localID : String)
    (hp : DiscoveryType → DiscoveryType → Bool) (data : List TxtData)
    (sd : Option SearchDomain) (store : List ForeignCluster) :
    (∀ fc ∈ (UpdateForeign localID hp data sd store).1, fc.clusterID ≠ localID) ∧
    (∀ dt w, w ∈ (updateForeignLoop localID hp sd dt data store).2.1 →
      w.cid ≠ localID) := by
  constructor
  · intro fc hfc
    cases sd with
    | none =>
      simp only [UpdateForeign] at hfc
      exact (updateForeignLoop_skips_local localID hp none DiscoveryType.lan data store).1
        fc hfc
    | some s =>
      simp only [UpdateForeign] at hfc
      exact (updateForeignLoop_skips_local localID hp (some s) DiscoveryType.wan data
        store).1 fc hfc
  · intro dt w hw
    exact (updateForeignLoop_skips_local localID hp sd dt data store).2 w hw

/-- Witness for C9 (amended): the ForeignCluster created for a foreign TXT record
does not carry the local cluster ID. -/
theorem updateForeign_skips_local_witness :
    (createForeign txtOther none DiscoveryType.lan).clusterID ≠ "self" :=
  (updateForeign_skips_local "self" (fun _ _ => false) [txtOther] none []).1
    (createForeign txtOther none DiscoveryType.lan) (by decide)

/-- C9 as stated is false at this input: with a pre-existing LAN ForeignCluster
carrying the local cluster ID and a decreased TTL, a TXT record for the local ID
makes the TTL pass of UpdateForeign issue an update for that ForeignCluster. -/
theorem updateForeign_local_update_counterexample :
    FCWrite.update "self"
      ∈ (UpdateForeign "self" (fun _ _ => false) [txtSelf] none [fcSelf]).2.1 := by
  decide

end Discovery

namespace LiqoctlAdd

/-- C10: enforceForeignCluster never overwrites the non-empty cluster name of an
existing ForeignCluster — afterwards the cluster name equals its prior value when
that was non-empty and equals the argument's name when it was empty — while the
foreign auth URL is always set from the arguments and outgoing peering is always
enabled. -/
theorem enforceForeignCluster_preserves_name (t : ClusterArgs) (fc : ForeignCluster)
    (existing : Option ForeignCluster) (h : existing = some fc) :
    (fc.clusterName ≠ "" →
      (enforceForeignCluster t existing).clusterName = fc.clusterName) ∧
    (fc.clusterName = "" →
      (enforceForeignCluster t existing).clusterName = t.clusterName) ∧
    (enforceForeignCluster t existing).foreignAuthURL = t.clusterAuthURL ∧
    (enforceForeignCluster t existing).outgoingPeeringEnabled = PeeringEnabledYes := by
  subst h
  by_cases hn : fc.clusterName = "" <;>
    simp [enforceForeignCluster, mutateForeignCluster, hn] <;>
    split_ifs <;> simp

/-- Witness for C10: an existing ForeignCluster whose cluster name is set keeps
it through enforceForeignCluster. -/
theorem enforceForeignCluster_preserves_name_witness :
    (enforceForeignCluster tArgs (some fcExisting)).clusterName = "keep-me" := by
  have h := enforceForeignCluster_preserves_name tArgs fcExisting (some fcExisting) rfl
  exact h.1 (by decide)

end LiqoctlAdd
